import Mathlib

/-!
Shallow embedding of `CassandraCQLLibrary` (robotframework-cassandracqllibrary,
file `src/CassandraCQLLibrary.py`, the typed current version of the module).

The library is a thin stateful wrapper over two external collaborators:

* the Cassandra driver (`cassandra.cluster`): sessions, `execute`,
  `execute_async`, futures.  Sessions are modelled by opaque natural-number
  ids; driver responses are passed in as oracles (`DriverResp`), and every
  call the library makes to the driver is recorded in a `DriverCall` log so
  that "performs no driver call" and "forwards to session X with timeout T"
  are expressible.
* `robot.utils.ConnectionCache`: the connection registry.  Its code is not
  part of this repository; it is modelled from the spec (see the doc
  comments below).

Python exceptions are modelled by the `Err` type.  The library raises only
generic `Exception`s with distinguishing messages (`pyException`), the cache
raises `RuntimeError` (`runtimeError`), `getattr` on a row lacking the column
raises `AttributeError` (`attributeError`), and driver exceptions propagate
as `driverError`.  The spec's error taxonomy additionally names typed kinds
(`StatementExecutionError`, `ColumnNotFoundError`, `DuplicateAliasError`)
that the code never produces; they are included as constructors so that
claims of the form "fails with a typed X error" can be stated and, where the
code disagrees, refuted.
-/

/-- Values stored in a result-set row.  `pyStr` is Python's `str()` on them. -/
inductive Value where
  | vStr (s : String)
  | vInt (n : Int)
  | vBool (b : Bool)
  | vNone
deriving Repr, DecidableEq

/-- Python `str()` of a row value. -/
def Value.pyStr : Value → String
  | .vStr s => s
  | .vInt n => toString n
  | .vBool b => if b then "True" else "False"
  | .vNone => "None"

/-- A result-set row: a mapping from column name to value (the driver's
`Row` named tuple).  Column names are unique in a real row; `rowAttr` takes
the first binding. -/
abbrev Row := List (String × Value)

/-- First-binding lookup in an association list (Python attribute/dict
lookup). -/
def lookupAssoc {β : Type} : List (String × β) → String → Option β
  | [], _ => none
  | (k, v) :: rest, a => if k = a then some v else lookupAssoc rest a

/-- Python `getattr(item, column)` on a row: `some` value when the column is
present, `none` when `getattr` would raise `AttributeError`. -/
def rowAttr (r : Row) (column : String) : Option Value :=
  lookupAssoc r column

/-- Python exceptions raised by the library, the cache, the driver, or
`getattr`, plus the spec taxonomy's typed kinds that the code never raises. -/
inductive Err where
  | pyException (msg : String)
  | runtimeError (msg : String)
  | attributeError (attr : String)
  | driverError (msg : String)
  | stmtExecutionError (msg : String)
  | columnNotFoundError (col : String)
  | duplicateAliasError (a : String)
deriving Repr, DecidableEq

/-- Discriminator: is this error the spec taxonomy's `StatementExecutionError`? -/
def Err.isStmtExecutionError : Err → Bool
  | .stmtExecutionError _ => true
  | _ => false

/-- Discriminator: is this error the spec taxonomy's `ColumnNotFoundError`? -/
def Err.isColumnNotFoundError : Err → Bool
  | .columnNotFoundError _ => true
  | _ => false

/-- Discriminator: is this error the spec taxonomy's `DuplicateAliasError`? -/
def Err.isDuplicateAliasError : Err → Bool
  | .duplicateAliasError _ => true
  | _ => false

/-- Message of `raise Exception('There is no connection to Cassandra cluster.')`. -/
def noConnectionMsg : String := "There is no connection to Cassandra cluster."

/-- A call the library makes to the driver: which session it is issued on,
the statement text, and the `timeout` keyword argument (`none` when the
Python call passes no timeout, as in `execute_async`). -/
structure DriverCall where
  session : Nat
  statement : String
  timeout : Option Nat
deriving Repr, DecidableEq

/-- A driver response oracle for one `execute`-like call: the rows of the
result set on success, or the message of the driver exception on failure. -/
abbrev DriverResp := Except String (List Row)

instance {ε α : Type} [DecidableEq ε] [DecidableEq α] :
    DecidableEq (Except ε α) := fun a b =>
  match a, b with
  | .ok x, .ok y =>
    if h : x = y then isTrue (congrArg Except.ok h)
    else isFalse (fun hc => h (Except.ok.inj hc))
  | .ok _, .error _ => isFalse (fun hc => Except.noConfusion hc)
  | .error _, .ok _ => isFalse (fun hc => Except.noConfusion hc)
  | .error x, .error y =>
    if h : x = y then isTrue (congrArg Except.error h)
    else isFalse (fun hc => h (Except.error.inj hc))

/-- Combined state of a `CassandraCQLLibrary` instance.

Modelled from the spec: the fields `connections`, `aliases` and
`cacheCurrent` embed `robot.utils.ConnectionCache` (the `self._cache`
attribute), whose code is not part of this repository; the spec describes it
in section 4.1 (register / switch / close_all / current) together with the
Design Notes of section 9 on the source's actual behavior (no
duplicate-alias guard on register: the last writer shadows alias lookup).

* `connections` — `cache._connections`: session ids in registration order;
  the 1-based position in this list is the connection index.
* `aliases` — `cache._aliases`: alias-to-index bindings, most recent first,
  so `List.lookup` sees the latest binding (last writer shadows).
* `cacheCurrent` — `cache.current`: `none` models the no-connection
  sentinel, which is falsy and holds no session.
* `libConnection` — `self._connection` of the library itself (`None`
  initially; set by connect and switch; reset by close_all).
* `shutdownSessions` — ids of sessions whose `shutdown()` has been called
  (driver-side bookkeeping; the cache keeps no such record).
* `nextSession` — fresh-id supply for new driver sessions. -/
structure LibState where
  connections : List Nat
  aliases : List (String × Nat)
  cacheCurrent : Option Nat
  libConnection : Option Nat
  shutdownSessions : List Nat
  nextSession : Nat
deriving Repr, DecidableEq

/-- State produced by `__init__`: `self._connection = None`,
`self._cache = ConnectionCache()`. -/
def initState : LibState :=
  { connections := [], aliases := [], cacheCurrent := none,
    libConnection := none, shutdownSessions := [], nextSession := 0 }

/-- Position (1-based) of the first occurrence of session `c` in the
connection list, or `none` when absent. -/
def indexOfSession : List Nat → Nat → Option Nat
  | [], _ => none
  | x :: rest, c =>
    if x = c then some 1
    else (indexOfSession rest c).map (· + 1)

/-- Modelled from the spec: `ConnectionCache.current_index` (code not in this
repository): `None` when no connection is current, otherwise the 1-based
position of the current connection in the registration list. -/
def LibState.currentIndex (s : LibState) : Option Nat :=
  match s.cacheCurrent with
  | none => none
  | some c => indexOfSession s.connections c

/-- The `index_or_alias` argument of `switch_cassandra_connection`
(`Union[int, str]` in the source). -/
inductive ConnId where
  | byIndex (i : Int)
  | byAlias (a : String)
deriving Repr, DecidableEq

/-- Python `str()` of the argument, used in the cache's error message. -/
def ConnId.text : ConnId → String
  | .byIndex i => toString i
  | .byAlias a => a

/-- Modelled from the spec: `ConnectionCache` resolution of an index or
alias (code not in this repository).  A string is first looked up among the
alias bindings; otherwise the argument is read as an integer and checked
against the range `1 ..= len(connections)`.  `none` models the lookup
failure that the cache re-raises as `RuntimeError`. -/
def resolveAliasOrIndex (s : LibState) : ConnId → Option Nat
  | .byAlias a =>
    match lookupAssoc s.aliases a with
    | some i => some i
    | none =>
      match a.toInt? with
      | some i =>
        if 0 < i ∧ i ≤ (s.connections.length : Int) then some i.toNat else none
      | none => none
  | .byIndex i =>
    if 0 < i ∧ i ≤ (s.connections.length : Int) then some i.toNat else none

/-- Error message of the cache's unknown-connection `RuntimeError`. -/
def unknownConnectionMsg (x : ConnId) : String :=
  "Non-existing index or alias " ++ x.text ++ "."

/-- `connect_to_cassandra(host, port, alias, ...)`.

The driver part (`Cluster(...)`, `cluster.connect()`, `set_keyspace`) is
external; `driverOk` is the oracle for whether it succeeds.  On failure the
whole body raises `Exception('Connect to Cassandra error: ...')` before any
state is mutated.  On success a fresh session becomes `self._connection`
and is registered in the cache.

Modelled from the spec: the `register` step embeds
`ConnectionCache.register(connection, alias)` (code not in this
repository): it makes the connection current, appends it, assigns index
`len(connections)`, binds the alias to that index when an alias string is
given — without any duplicate-alias guard, per the spec's Design Notes the
last writer shadows lookup — and returns the index. -/
def connect_to_cassandra (s : LibState) (a : Option String) (driverOk : Bool)
    (driverMsg : String := "") : LibState × Except Err Nat :=
  if driverOk then
    let sid := s.nextSession
    let conns := s.connections ++ [sid]
    let idx := conns.length
    let aliases :=
      match a with
      | some name => (name, idx) :: s.aliases
      | none => s.aliases
    ({ connections := conns, aliases := aliases, cacheCurrent := some sid,
       libConnection := some sid, shutdownSessions := s.shutdownSessions,
       nextSession := sid + 1 },
     .ok idx)
  else
    (s, .error (.pyException ("Connect to Cassandra error: " ++ driverMsg)))

/-- `disconnect_from_cassandra()`: raises when `self._connection is None`,
otherwise calls `shutdown()` on the current session and nothing else — the
cache and `self._connection` are untouched. -/
def disconnect_from_cassandra (s : LibState) : LibState × Except Err Unit :=
  match s.libConnection with
  | none => (s, .error (.pyException noConnectionMsg))
  | some c =>
    ({ s with shutdownSessions := c :: s.shutdownSessions }, .ok ())

/-- `close_all_cassandra_connections()`.

Modelled from the spec: `ConnectionCache.close_all(closer_method='shutdown')`
(code not in this repository) calls `shutdown()` on every registered
session, empties the registry (connections, aliases, current sentinel,
restarting index numbering at 1), and returns the no-connection sentinel,
which the library stores into `self._connection` (falsy, modelled `none`). -/
def close_all_cassandra_connections (s : LibState) : LibState :=
  { connections := [], aliases := [], cacheCurrent := none,
    libConnection := none,
    shutdownSessions := s.shutdownSessions ++ s.connections,
    nextSession := s.nextSession }

/-- `switch_cassandra_connection(index_or_alias)`: reads
`self._cache.current_index` first, then `self._cache.switch(...)`, and
returns the previously read index.

Modelled from the spec: `ConnectionCache.switch` (code not in this
repository) resolves the index or alias, makes the resolved connection
current, and raises `RuntimeError` on an unknown index or alias — before
any mutation, so a failed switch changes nothing. -/
def switch_cassandra_connection (s : LibState) (x : ConnId) :
    LibState × Except Err (Option Nat) :=
  let oldIndex := s.currentIndex
  match resolveAliasOrIndex s x with
  | none => (s, .error (.runtimeError (unknownConnectionMsg x)))
  | some i =>
    match s.connections[i - 1]? with
    | none => (s, .error (.runtimeError (unknownConnectionMsg x)))
    | some c =>
      ({ s with cacheCurrent := some c, libConnection := some c },
       .ok oldIndex)

/-- `execute_cql(statement)`: raises `Exception` when `self._connection` is
falsy (no driver call is made); otherwise calls
`self._connection.execute(statement, timeout=60)` and returns its result
unchanged — there is no try/except here, a driver exception propagates
as-is.  The third component records the driver calls made. -/
def execute_cql (s : LibState) (stmt : String) (resp : DriverResp) :
    LibState × Except Err (List Row) × List DriverCall :=
  match s.libConnection with
  | none => (s, .error (.pyException noConnectionMsg), [])
  | some c =>
    match resp with
    | .ok rows => (s, .ok rows, [⟨c, stmt, some 60⟩])
    | .error m => (s, .error (.driverError m), [⟨c, stmt, some 60⟩])

/-- `execute_async_cql(statement)`: same `self._connection` guard; otherwise
calls `self._connection.execute_async(statement)` (no timeout argument) and
returns the future, modelled as the pair (session id, statement). -/
def execute_async_cql (s : LibState) (stmt : String) :
    LibState × Except Err (Nat × String) × List DriverCall :=
  match s.libConnection with
  | none => (s, .error (.pyException noConnectionMsg), [])
  | some c => (s, .ok (c, stmt), [⟨c, stmt, none⟩])

/-- `get_async_result(future)`: calls `future.result()` and wraps any
exception from it as `Exception('Operation failed: ...')` carrying the
original message. -/
def get_async_result (resp : DriverResp) : Except Err (List Row) :=
  match resp with
  | .ok rows => .ok rows
  | .error m => .error (.pyException ("Operation failed: " ++ m))

/-- The loop body of `get_column`: for each row in order,
`str(getattr(item, column))` is appended; a missing column raises
`AttributeError` at that row, discarding the partial list. -/
def projectRows (column : String) : List Row → Except Err (List String)
  | [] => .ok []
  | r :: rest =>
    match rowAttr r column with
    | none => .error (.attributeError column)
    | some v =>
      match projectRows column rest with
      | .ok tail => .ok (v.pyStr :: tail)
      | .error e => .error e

/-- `get_column(column, statement)`: `execute_cql` then the projection loop. -/
def get_column (s : LibState) (column stmt : String) (resp : DriverResp) :
    LibState × Except Err (List String) × List DriverCall :=
  let out := execute_cql s stmt resp
  match out.snd.fst with
  | .error e => (out.fst, .error e, out.snd.snd)
  | .ok rows => (out.fst, projectRows column rows, out.snd.snd)

/-! ### Trace semantics

Keyword calls issued against one library instance, in order.  The driver
oracles (success of a connect, response to an execute) travel inside the
operations. -/

/-- One keyword call.  Return values are dropped here; `step` keeps only the
state effect, `connectResults` collects the indices the connect calls
return. -/
inductive Op where
  | connect (a : Option String) (driverOk : Bool)
  | disconnect
  | closeAll
  | switch (x : ConnId)
  | execute (stmt : String) (resp : DriverResp)
deriving Repr, DecidableEq

/-- State effect of one keyword call. -/
def step (s : LibState) : Op → LibState
  | .connect a ok => (connect_to_cassandra s a ok).fst
  | .disconnect => (disconnect_from_cassandra s).fst
  | .closeAll => close_all_cassandra_connections s
  | .switch x => (switch_cassandra_connection s x).fst
  | .execute stmt resp => (execute_cql s stmt resp).fst

/-- Run a sequence of keyword calls from a state. -/
def run (s : LibState) : List Op → LibState
  | [] => s
  | op :: rest => run (step s op) rest

/-- Indices returned by the successful `connect_to_cassandra` calls of a
trace, in call order. -/
def connectResults (s : LibState) : List Op → List Nat
  | [] => []
  | .connect a ok :: rest =>
    let out := connect_to_cassandra s a ok
    (match out.snd with
     | .ok i => [i]
     | .error _ => []) ++ connectResults out.fst rest
  | op :: rest => connectResults (step s op) rest

/-- Spec-side prediction of the connect indices of a trace, given how many
connections are live at its start: each successful connect returns one more
than the live count, and `close_all` resets the count to zero. -/
def expectedIndices (n : Nat) : List Op → List Nat
  | [] => []
  | .connect _ true :: rest => (n + 1) :: expectedIndices (n + 1) rest
  | .connect _ false :: rest => expectedIndices n rest
  | .closeAll :: rest => expectedIndices 0 rest
  | .disconnect :: rest => expectedIndices n rest
  | .switch _ :: rest => expectedIndices n rest
  | .execute _ _ :: rest => expectedIndices n rest

/-- Number of successful connect calls in a trace. -/
def countConnectOk : List Op → Nat
  | [] => 0
  | .connect _ true :: rest => countConnectOk rest + 1
  | _ :: rest => countConnectOk rest

/-- The list `[start, start + 1, ..., start + len - 1]`. -/
def ascendingFrom (start : Nat) : Nat → List Nat
  | 0 => []
  | len + 1 => start :: ascendingFrom (start + 1) len

/-- State invariant of a library instance, preserved by every keyword call:
the cache's current sentinel, the library's `_connection`, and emptiness of
the registry agree; a current connection is registered; alias bindings point
into the registry; session ids are distinct and below the fresh supply. -/
def StateInv (s : LibState) : Prop :=
  (s.cacheCurrent = none ↔ s.connections = []) ∧
  (s.libConnection = none ↔ s.connections = []) ∧
  (∀ c ∈ s.cacheCurrent.toList, c ∈ s.connections) ∧
  (∀ p ∈ s.aliases, 1 ≤ p.2 ∧ p.2 ≤ s.connections.length) ∧
  s.connections.Nodup ∧
  (∀ c ∈ s.connections, c < s.nextSession)

example : StateInv initState := by
  refine ⟨?_, ?_, ?_, ?_, ?_, ?_⟩ <;> simp [initState]

example :
    connectResults initState
      [.connect (some "c1") true, .connect none true, .closeAll,
       .connect none true] = [1, 2, 1] := by decide

example :
    (switch_cassandra_connection
      (run initState [.connect (some "c1") true, .connect none true])
      (.byAlias "c1")).snd = .ok (some 2) := by decide

/-! ### Helper lemmas -/

theorem lookupAssoc_mem {β : Type} {a : String} {v : β} :
    ∀ {l : List (String × β)}, lookupAssoc l a = some v → (a, v) ∈ l := by
  intro l
  induction l with
  | nil => intro h; cases h
  | cons p rest ih =>
    intro h
    rcases p with ⟨k, w⟩
    by_cases hk : k = a
    · simp [lookupAssoc, hk] at h
      subst hk h
      exact List.mem_cons_self _ _
    · simp [lookupAssoc, hk] at h
      exact List.mem_cons_of_mem _ (ih h)

theorem indexOfSession_of_mem {c : Nat} :
    ∀ {l : List Nat}, c ∈ l → ∃ j, indexOfSession l c = some j := by
  intro l
  induction l with
  | nil => intro h; cases h
  | cons x rest ih =>
    intro h
    by_cases hx : x = c
    · exact ⟨1, by simp [indexOfSession, hx]⟩
    · rcases List.mem_cons.mp h with h1 | h2
      · exact absurd h1.symm hx
      · rcases ih h2 with ⟨j, hj⟩
        exact ⟨j + 1, by simp [indexOfSession, hx, hj]⟩

theorem connect_fst_connections (s : LibState) (a : Option String) :
    ∀ ok, (connect_to_cassandra s a ok).fst.connections =
      if ok then s.connections ++ [s.nextSession] else s.connections := by
  intro ok
  cases ok <;> cases a <;> rfl

theorem disconnect_fst_connections (s : LibState) :
    (disconnect_from_cassandra s).fst.connections = s.connections := by
  unfold disconnect_from_cassandra
  cases s.libConnection <;> rfl

theorem switch_fst_connections (s : LibState) (x : ConnId) :
    (switch_cassandra_connection s x).fst.connections = s.connections := by
  unfold switch_cassandra_connection
  rcases hr : resolveAliasOrIndex s x with _ | i
  · rfl
  · rcases hg : s.connections[i - 1]? with _ | c <;> simp [hr, hg]

theorem connectResults_eq_expected (ops : List Op) :
    ∀ s : LibState, connectResults s ops = expectedIndices s.connections.length ops := by
  induction ops with
  | nil => intro s; rfl
  | cons op rest ih =>
    intro s
    cases op with
    | connect a ok =>
      cases ok with
      | true =>
        cases a <;>
          simp [connectResults, expectedIndices, connect_to_cassandra, ih]
      | false =>
        cases a <;>
          simp [connectResults, expectedIndices, connect_to_cassandra, ih]
    | disconnect =>
      simp [connectResults, expectedIndices, step, ih,
        disconnect_fst_connections]
    | closeAll =>
      simp [connectResults, expectedIndices, step, ih,
        close_all_cassandra_connections]
    | switch x =>
      simp [connectResults, expectedIndices, step, ih, switch_fst_connections]
    | execute stmt resp =>
      have hfst : (execute_cql s stmt resp).fst = s := by
        unfold execute_cql
        cases s.libConnection <;> [rfl; (cases resp <;> rfl)]
      simp [connectResults, expectedIndices, step, ih, hfst]

theorem expectedIndices_no_reset :
    ∀ (ops : List Op) (n : Nat), Op.closeAll ∉ ops →
      expectedIndices n ops = ascendingFrom (n + 1) (countConnectOk ops) := by
  intro ops
  induction ops with
  | nil => intro n _; rfl
  | cons op rest ih =>
    intro n hni
    have hrest : Op.closeAll ∉ rest := fun h => hni (List.mem_cons_of_mem _ h)
    have ihr : ∀ m, expectedIndices m rest = ascendingFrom (m + 1) (countConnectOk rest) :=
      fun m => ih m hrest
    cases op with
    | connect a ok =>
      cases ok <;> simp [expectedIndices, countConnectOk, ascendingFrom, ihr]
    | disconnect => simp [expectedIndices, countConnectOk, ihr]
    | closeAll => exact absurd (List.mem_cons_self _ _) hni
    | switch x => simp [expectedIndices, countConnectOk, ihr]
    | execute stmt resp => simp [expectedIndices, countConnectOk, ihr]

theorem stateInv_init : StateInv initState := by
  refine ⟨?_, ?_, ?_, ?_, ?_, ?_⟩ <;> simp [initState]

/-! Characterization equations for the operations, given the relevant state
facts; these make the branch taken explicit. -/

theorem connect_true_eq (s : LibState) (a : Option String) (dm : String) :
    connect_to_cassandra s a true dm =
      ({ connections := s.connections ++ [s.nextSession],
         aliases :=
           match a with
           | some name => (name, s.connections.length + 1) :: s.aliases
           | none => s.aliases,
         cacheCurrent := some s.nextSession,
         libConnection := some s.nextSession,
         shutdownSessions := s.shutdownSessions,
         nextSession := s.nextSession + 1 },
       .ok (s.connections.length + 1)) := by
  cases a <;> simp [connect_to_cassandra]

theorem connect_false_eq (s : LibState) (a : Option String) (dm : String) :
    connect_to_cassandra s a false dm =
      (s, .error (.pyException ("Connect to Cassandra error: " ++ dm))) := by
  simp [connect_to_cassandra]

theorem disconnect_eq_none (s : LibState) (h : s.libConnection = none) :
    disconnect_from_cassandra s = (s, .error (.pyException noConnectionMsg)) := by
  unfold disconnect_from_cassandra
  rw [h]

theorem disconnect_eq_some (s : LibState) (c : Nat) (h : s.libConnection = some c) :
    disconnect_from_cassandra s =
      ({ s with shutdownSessions := c :: s.shutdownSessions }, .ok ()) := by
  unfold disconnect_from_cassandra
  rw [h]

theorem switch_eq_resolved (s : LibState) (x : ConnId) (i c : Nat)
    (hr : resolveAliasOrIndex s x = some i)
    (hg : s.connections[i - 1]? = some c) :
    switch_cassandra_connection s x =
      ({ s with cacheCurrent := some c, libConnection := some c },
       .ok s.currentIndex) := by
  unfold switch_cassandra_connection
  simp [hr, hg]

theorem switch_eq_unresolved (s : LibState) (x : ConnId)
    (hr : resolveAliasOrIndex s x = none) :
    switch_cassandra_connection s x =
      (s, .error (.runtimeError (unknownConnectionMsg x))) := by
  unfold switch_cassandra_connection
  rw [hr]

theorem execute_eq_none (s : LibState) (stmt : String) (resp : DriverResp)
    (h : s.libConnection = none) :
    execute_cql s stmt resp = (s, .error (.pyException noConnectionMsg), []) := by
  unfold execute_cql
  rw [h]

theorem execute_eq_some (s : LibState) (stmt : String) (resp : DriverResp)
    (c : Nat) (h : s.libConnection = some c) :
    execute_cql s stmt resp =
      (s,
       match resp with
       | .ok rows => .ok rows
       | .error m => .error (.driverError m),
       [⟨c, stmt, some 60⟩]) := by
  unfold execute_cql
  rw [h]
  cases resp <;> rfl

theorem execute_fst (s : LibState) (stmt : String) (resp : DriverResp) :
    (execute_cql s stmt resp).fst = s := by
  rcases hc : s.libConnection with _ | c
  · rw [execute_eq_none s stmt resp hc]
  · rw [execute_eq_some s stmt resp c hc]

theorem stateInv_connect (s : LibState) (a : Option String) (ok : Bool)
    (dm : String) (h : StateInv s) :
    StateInv (connect_to_cassandra s a ok dm).fst := by
  obtain ⟨h1, h2, h3, h4, h5, h6⟩ := h
  cases ok with
  | false => rw [connect_false_eq]; exact ⟨h1, h2, h3, h4, h5, h6⟩
  | true =>
    rw [connect_true_eq]
    have hnodup : (s.connections ++ [s.nextSession]).Nodup := by
      rw [List.nodup_append]
      refine ⟨h5, by simp, ?_⟩
      intro x hx hx'
      have hxe : x = s.nextSession := by simpa using hx'
      exact absurd (hxe ▸ h6 x hx) (Nat.lt_irrefl _)
    have hbound : ∀ c ∈ s.connections ++ [s.nextSession], c < s.nextSession + 1 := by
      intro c hc
      rcases List.mem_append.mp hc with hc | hc
      · exact Nat.lt_succ_of_lt (h6 c hc)
      · simp at hc; omega
    refine ⟨by simp, by simp, by simp, ?_, hnodup, hbound⟩
    intro p hp
    simp only [List.length_append, List.length_cons, List.length_nil]
    cases a with
    | none =>
      simp only at hp
      rcases h4 p hp with ⟨hl, hr⟩
      omega
    | some name =>
      simp only [List.mem_cons] at hp
      rcases hp with hp | hp
      · subst hp; simp
      · rcases h4 p hp with ⟨hl, hr⟩; omega

theorem stateInv_disconnect (s : LibState) (h : StateInv s) :
    StateInv (disconnect_from_cassandra s).fst := by
  obtain ⟨h1, h2, h3, h4, h5, h6⟩ := h
  rcases hc : s.libConnection with _ | c
  · rw [disconnect_eq_none s hc]
    exact ⟨h1, h2, h3, h4, h5, h6⟩
  · rw [disconnect_eq_some s c hc]
    exact ⟨h1, hc ▸ h2, h3, h4, h5, h6⟩

theorem stateInv_closeAll (s : LibState) :
    StateInv (close_all_cassandra_connections s) := by
  refine ⟨?_, ?_, ?_, ?_, ?_, ?_⟩ <;> simp [close_all_cassandra_connections]

theorem stateInv_switch (s : LibState) (x : ConnId) (h : StateInv s) :
    StateInv (switch_cassandra_connection s x).fst := by
  obtain ⟨h1, h2, h3, h4, h5, h6⟩ := h
  rcases hr : resolveAliasOrIndex s x with _ | i
  · rw [switch_eq_unresolved s x hr]
    exact ⟨h1, h2, h3, h4, h5, h6⟩
  · rcases hg : s.connections[i - 1]? with _ | c
    · unfold switch_cassandra_connection
      simp only [hr]
      rw [hg]
      exact ⟨h1, h2, h3, h4, h5, h6⟩
    · rw [switch_eq_resolved s x i c hr hg]
      have hmem : c ∈ s.connections := List.getElem?_mem hg
      have hne : s.connections ≠ [] := by
        intro hnil
        rw [hnil] at hg
        simp at hg
      exact ⟨by simp [hne], by simp [hne], by simpa using hmem, h4, h5, h6⟩

theorem stateInv_execute (s : LibState) (stmt : String) (resp : DriverResp)
    (h : StateInv s) : StateInv (execute_cql s stmt resp).fst := by
  rw [execute_fst]
  exact h

theorem stateInv_step (s : LibState) (op : Op) (h : StateInv s) :
    StateInv (step s op) := by
  cases op with
  | connect a ok => exact stateInv_connect s a ok "" h
  | disconnect => exact stateInv_disconnect s h
  | closeAll => exact stateInv_closeAll s
  | switch x => exact stateInv_switch s x h
  | execute stmt resp => exact stateInv_execute s stmt resp h

theorem stateInv_run (ops : List Op) :
    ∀ s : LibState, StateInv s → StateInv (run s ops) := by
  induction ops with
  | nil => intro s h; exact h
  | cons op rest ih => intro s h; exact ih _ (stateInv_step s op h)

instance (s : LibState) : Decidable (StateInv s) := by
  unfold StateInv
  infer_instance

theorem resolve_bound (s : LibState) (x : ConnId) (i : Nat) (hInv : StateInv s)
    (h : resolveAliasOrIndex s x = some i) :
    1 ≤ i ∧ i ≤ s.connections.length := by
  obtain ⟨-, -, -, h4, -, -⟩ := hInv
  cases x with
  | byIndex n =>
    simp only [resolveAliasOrIndex] at h
    split at h
    · rename_i hcond
      obtain ⟨hc1, hc2⟩ := hcond
      injection h with h
      omega
    · cases h
  | byAlias a =>
    simp only [resolveAliasOrIndex] at h
    rcases hl : lookupAssoc s.aliases a with _ | j
    · simp only [hl] at h
      rcases ht : a.toInt? with _ | n
      · simp only [ht] at h
        cases h
      · simp only [ht] at h
        split at h
        · rename_i hcond
          obtain ⟨hc1, hc2⟩ := hcond
          injection h with h
          omega
        · cases h
    · simp only [hl] at h
      injection h with h
      subst h
      exact h4 (a, j) (lookupAssoc_mem hl)

/-! ### The claims -/

/-- C1: over every sequence of keyword calls starting from a fresh library,
the indices returned by the successful connect calls are fully determined:
each returns one more than the number of connections registered since the
last `close_all` (so they read 1, 2, 3, ... within each such segment, with
no index reused before a full reset, and the first connect after a
`close_all` returns 1 again); in particular a trace with no `close_all`
returns exactly the strictly increasing list `[1, ..., k]`. -/
theorem c1_connect_indices (ops : List Op) :
    connectResults initState ops = expectedIndices 0 ops ∧
    (Op.closeAll ∉ ops →
      connectResults initState ops = ascendingFrom 1 (countConnectOk ops)) := by
  constructor
  · exact connectResults_eq_expected ops initState
  · intro h
    rw [connectResults_eq_expected ops initState]
    exact expectedIndices_no_reset ops 0 h

/-- Witness for C1 at a concrete trace: two successful connects and one
failed connect, no `close_all`; the returned indices are `[1, 2]`. -/
theorem c1_connect_indices_witness :
    Op.closeAll ∉
      ([.connect (some "c1") true, .connect none false, .connect none true] :
        List Op) ∧
    connectResults initState
      [.connect (some "c1") true, .connect none false, .connect none true] =
      ascendingFrom 1
        (countConnectOk
          [.connect (some "c1") true, .connect none false, .connect none true]) :=
  ⟨by decide,
   (c1_connect_indices
     [.connect (some "c1") true, .connect none false, .connect none true]).2
     (by decide)⟩

/-- C2: in every invariant-respecting library state with at least one
registered connection, `switch_cassandra_connection` (a) has a well-defined
previous index, (b) on a resolvable index or alias makes the resolved entry
the cache's current connection and the library's active session, changing
nothing else, and returns the index that was current immediately before the
call, and (c) on an unresolvable argument fails with the cache's
unknown-connection `RuntimeError`. -/
theorem c2_switch_previous_index (s : LibState) (x : ConnId)
    (hInv : StateInv s) (hne : s.connections ≠ []) :
    (∃ prev, s.currentIndex = some prev) ∧
    (∀ i, resolveAliasOrIndex s x = some i →
      ∃ c, s.connections[i - 1]? = some c ∧
        switch_cassandra_connection s x =
          ({ s with cacheCurrent := some c, libConnection := some c },
           .ok s.currentIndex)) ∧
    (resolveAliasOrIndex s x = none →
      switch_cassandra_connection s x =
        (s, .error (.runtimeError (unknownConnectionMsg x)))) := by
  refine ⟨?_, ?_, switch_eq_unresolved s x⟩
  · rcases hc : s.cacheCurrent with _ | c
    · exact absurd (hInv.1.mp hc) hne
    · have hmem : c ∈ s.connections := hInv.2.2.1 c (by simp [hc])
      rcases indexOfSession_of_mem hmem with ⟨j, hj⟩
      exact ⟨j, by simp [LibState.currentIndex, hc, hj]⟩
  · intro i hi
    rcases resolve_bound s x i hInv hi with ⟨h1, h2⟩
    have hlt : i - 1 < s.connections.length := by omega
    exact ⟨s.connections[i - 1], List.getElem?_eq_getElem hlt,
      switch_eq_resolved s x i _ hi (List.getElem?_eq_getElem hlt)⟩

/-- Witness for C2: a state with two connections (the second current);
switching to alias "c1" is resolvable and the previous index exists. -/
theorem c2_switch_previous_index_witness :
    StateInv (run initState [.connect (some "c1") true, .connect none true]) ∧
    (run initState [.connect (some "c1") true, .connect none true]).connections ≠ [] ∧
    ((∃ prev,
        (run initState [.connect (some "c1") true, .connect none true]).currentIndex =
          some prev) ∧
     (∀ i,
        resolveAliasOrIndex
          (run initState [.connect (some "c1") true, .connect none true])
          (.byAlias "c1") = some i →
        ∃ c,
          (run initState
            [.connect (some "c1") true, .connect none true]).connections[i - 1]? =
            some c ∧
          switch_cassandra_connection
            (run initState [.connect (some "c1") true, .connect none true])
            (.byAlias "c1") =
            ({ run initState [.connect (some "c1") true, .connect none true] with
                cacheCurrent := some c, libConnection := some c },
             .ok (run initState
                [.connect (some "c1") true, .connect none true]).currentIndex)) ∧
     (resolveAliasOrIndex
        (run initState [.connect (some "c1") true, .connect none true])
        (.byAlias "c1") = none →
      switch_cassandra_connection
        (run initState [.connect (some "c1") true, .connect none true])
        (.byAlias "c1") =
        (run initState [.connect (some "c1") true, .connect none true],
         .error (.runtimeError
           (unknownConnectionMsg (.byAlias "c1")))))) :=
  ⟨by decide, by decide,
   c2_switch_previous_index
     (run initState [.connect (some "c1") true, .connect none true])
     (.byAlias "c1") (by decide) (by decide)⟩

/-- C3: in every invariant-respecting state whose connection cache is empty
(no connection registered), `execute_cql` fails with the
no-connection `Exception`, leaves the state unchanged, and performs no
driver call; `execute_async_cql` behaves the same. -/
theorem c3_execute_empty_cache (s : LibState) (stmt : String)
    (resp : DriverResp) (hInv : StateInv s) (hempty : s.connections = []) :
    execute_cql s stmt resp = (s, .error (.pyException noConnectionMsg), []) ∧
    execute_async_cql s stmt = (s, .error (.pyException noConnectionMsg), []) := by
  have hlib : s.libConnection = none := hInv.2.1.mpr hempty
  refine ⟨execute_eq_none s stmt resp hlib, ?_⟩
  unfold execute_async_cql
  rw [hlib]

/-- Witness for C3 at the fresh library state. -/
theorem c3_execute_empty_cache_witness :
    StateInv initState ∧ initState.connections = [] ∧
    (execute_cql initState "SELECT * FROM t" (.ok []) =
      (initState, .error (.pyException noConnectionMsg), []) ∧
     execute_async_cql initState "SELECT * FROM t" =
      (initState, .error (.pyException noConnectionMsg), [])) :=
  ⟨by decide, by decide,
   c3_execute_empty_cache initState "SELECT * FROM t" (.ok [])
     (by decide) (by decide)⟩

/-- Counterexample for C4: in a state with a live connection, a driver
failure with message "boom" makes `execute_cql` fail with the driver's own
exception, unchanged — not with a statement-execution error of the spec's
taxonomy: the source has no try/except around `self._connection.execute`. -/
theorem c4_counterexample :
    execute_cql (run initState [.connect none true]) "USE system"
      (.error "boom") =
      (run initState [.connect none true], .error (.driverError "boom"),
       [⟨0, "USE system", some 60⟩]) ∧
    Err.isStmtExecutionError (.driverError "boom") = false := by
  decide

/-- C4 amended: only `connect_to_cassandra` and `get_async_result` catch
driver failures at their boundary and re-signal them as generic exceptions
carrying the original message ("Connect to Cassandra error: ..." and
"Operation failed: ..." respectively); `execute_cql` propagates a driver
failure unchanged, with no wrapping of any kind. -/
theorem c4_error_propagation (s : LibState) (c : Nat) (stmt msg : String)
    (h : s.libConnection = some c) :
    execute_cql s stmt (.error msg) =
      (s, .error (.driverError msg), [⟨c, stmt, some 60⟩]) ∧
    get_async_result (.error msg) =
      .error (.pyException ("Operation failed: " ++ msg)) ∧
    (∀ dm, (connect_to_cassandra s none false dm).snd =
      .error (.pyException ("Connect to Cassandra error: " ++ dm))) := by
  refine ⟨?_, rfl, fun dm => ?_⟩
  · rw [execute_eq_some s stmt (.error msg) c h]
  · rw [connect_false_eq]

/-- Witness for C4's amended theorem at a concrete state and message. -/
theorem c4_error_propagation_witness :
    (run initState [.connect none true]).libConnection = some 0 ∧
    (execute_cql (run initState [.connect none true]) "USE system"
      (.error "boom") =
      (run initState [.connect none true], .error (.driverError "boom"),
       [⟨0, "USE system", some 60⟩]) ∧
     get_async_result (.error "boom") =
      .error (.pyException ("Operation failed: " ++ "boom")) ∧
     (∀ dm, (connect_to_cassandra (run initState [.connect none true])
        none false dm).snd =
      .error (.pyException ("Connect to Cassandra error: " ++ dm)))) :=
  ⟨by decide,
   c4_error_propagation (run initState [.connect none true]) 0 "USE system"
     "boom" (by decide)⟩

theorem projectRows_ok (column : String) :
    ∀ rows : List Row, (∀ r ∈ rows, (rowAttr r column).isSome) →
      projectRows column rows =
        .ok (rows.map fun r => ((rowAttr r column).getD .vNone).pyStr) := by
  intro rows
  induction rows with
  | nil => intro _; rfl
  | cons r rest ih =>
    intro hall
    have hr : (rowAttr r column).isSome := hall r (List.mem_cons_self _ _)
    rcases hv : rowAttr r column with _ | v
    · rw [hv] at hr; cases hr
    · have hrest := ih (fun q hq => hall q (List.mem_cons_of_mem _ hq))
      simp [projectRows, hv, hrest]

/-- C5: on a result set every row of which carries the named column,
`get_column` returns the per-row string representations of that column's
values, in row order, and the returned list has exactly as many elements as
the result set has rows. -/
theorem c5_get_column_projection (s : LibState) (c : Nat)
    (column stmt : String) (rows : List Row) (h : s.libConnection = some c)
    (hall : ∀ r ∈ rows, (rowAttr r column).isSome) :
    get_column s column stmt (.ok rows) =
      (s, .ok (rows.map fun r => ((rowAttr r column).getD .vNone).pyStr),
       [⟨c, stmt, some 60⟩]) ∧
    (rows.map fun r => ((rowAttr r column).getD .vNone).pyStr).length =
      rows.length := by
  have he := execute_eq_some s stmt (.ok rows) c h
  refine ⟨?_, by simp⟩
  simp only [get_column, he]
  simp [projectRows_ok column rows hall]

/-- Witness for C5: two rows with column "keyspace_name" valued "test" and
"OpsCenter" project to the list ["test", "OpsCenter"] (spec section 8's
scenario). -/
theorem c5_get_column_projection_witness :
    (run initState [.connect none true]).libConnection = some 0 ∧
    (∀ r ∈ ([[("keyspace_name", Value.vStr "test")],
             [("keyspace_name", Value.vStr "OpsCenter")]] : List Row),
      (rowAttr r "keyspace_name").isSome) ∧
    (get_column (run initState [.connect none true]) "keyspace_name"
      "SELECT * FROM system.schema_keyspaces"
      (.ok [[("keyspace_name", Value.vStr "test")],
            [("keyspace_name", Value.vStr "OpsCenter")]]) =
      (run initState [.connect none true],
       .ok (([[("keyspace_name", Value.vStr "test")],
              [("keyspace_name", Value.vStr "OpsCenter")]] : List Row).map
         fun r => ((rowAttr r "keyspace_name").getD .vNone).pyStr),
       [⟨0, "SELECT * FROM system.schema_keyspaces", some 60⟩]) ∧
     (([[("keyspace_name", Value.vStr "test")],
        [("keyspace_name", Value.vStr "OpsCenter")]] : List Row).map
         fun r => ((rowAttr r "keyspace_name").getD .vNone).pyStr).length =
      ([[("keyspace_name", Value.vStr "test")],
        [("keyspace_name", Value.vStr "OpsCenter")]] : List Row).length) :=
  ⟨by decide, by decide,
   c5_get_column_projection (run initState [.connect none true]) 0
     "keyspace_name" "SELECT * FROM system.schema_keyspaces"
     [[("keyspace_name", Value.vStr "test")],
      [("keyspace_name", Value.vStr "OpsCenter")]]
     (by decide) (by decide)⟩

/-- Counterexample for C6: a result set whose second row lacks column "k"
makes `get_column` fail with the generic `AttributeError` raised by
`getattr` — not with a typed column-not-found error of the spec's taxonomy. -/
theorem c6_counterexample :
    get_column (run initState [.connect none true]) "k" "SELECT * FROM t"
      (.ok [[("k", Value.vStr "a")], [("z", Value.vStr "b")]]) =
      (run initState [.connect none true], .error (.attributeError "k"),
       [⟨0, "SELECT * FROM t", some 60⟩]) ∧
    Err.isColumnNotFoundError (.attributeError "k") = false := by
  decide

theorem projectRows_missing (column : String) (r : Row)
    (hmiss : rowAttr r column = none) :
    ∀ (pre : List Row) (post : List Row),
      (∀ q ∈ pre, (rowAttr q column).isSome) →
      projectRows column (pre ++ r :: post) =
        .error (.attributeError column) := by
  intro pre
  induction pre with
  | nil => intro post _; simp [projectRows, hmiss]
  | cons q rest ih =>
    intro post hall
    have hq : (rowAttr q column).isSome := hall q (List.mem_cons_self _ _)
    rcases hv : rowAttr q column with _ | v
    · rw [hv] at hq; cases hq
    · have hrest := ih post (fun p hp => hall p (List.mem_cons_of_mem _ hp))
      simp [projectRows, hv, hrest]

/-- C6 amended: on the first row lacking the named column, `get_column`
fails with the generic `AttributeError` raised by `getattr` naming the
column (not the spec taxonomy's typed `ColumnNotFoundError`); rows after
the first offending one are irrelevant, and the partially built list is
discarded. -/
theorem c6_get_column_missing (s : LibState) (c : Nat) (column stmt : String)
    (pre post : List Row) (r : Row) (h : s.libConnection = some c)
    (hpre : ∀ q ∈ pre, (rowAttr q column).isSome)
    (hmiss : rowAttr r column = none) :
    get_column s column stmt (.ok (pre ++ r :: post)) =
      (s, .error (.attributeError column), [⟨c, stmt, some 60⟩]) := by
  have he := execute_eq_some s stmt (.ok (pre ++ r :: post)) c h
  simp only [get_column, he]
  simp [projectRows_missing column r hmiss pre post hpre]

/-- Witness for C6's amended theorem: first row has column "k", second does
not, third arbitrary. -/
theorem c6_get_column_missing_witness :
    (run initState [.connect none true]).libConnection = some 0 ∧
    (∀ q ∈ ([[("k", Value.vStr "a")]] : List Row),
      (rowAttr q "k").isSome) ∧
    rowAttr ([("z", Value.vStr "b")] : Row) "k" = none ∧
    get_column (run initState [.connect none true]) "k" "SELECT * FROM t"
      (.ok (([[("k", Value.vStr "a")]] : List Row) ++
        ([("z", Value.vStr "b")] : Row) ::
          ([[("k", Value.vStr "c")]] : List Row))) =
      (run initState [.connect none true], .error (.attributeError "k"),
       [⟨0, "SELECT * FROM t", some 60⟩]) :=
  ⟨by decide, by decide, by decide,
   c6_get_column_missing (run initState [.connect none true]) 0 "k"
     "SELECT * FROM t" [[("k", Value.vStr "a")]] [[("k", Value.vStr "c")]]
     [("z", Value.vStr "b")] (by decide) (by decide) (by decide)⟩

/-- Counterexample for C7: registering a second connection under the
already-bound alias "a" does not fail — it succeeds with index 2, the new
connection is registered, and the alias now resolves to the new entry. -/
theorem c7_counterexample :
    (connect_to_cassandra (run initState [.connect (some "a") true])
      (some "a") true).snd = .ok 2 ∧
    (connect_to_cassandra (run initState [.connect (some "a") true])
      (some "a") true).fst.connections.length = 2 ∧
    lookupAssoc
      (connect_to_cassandra (run initState [.connect (some "a") true])
        (some "a") true).fst.aliases "a" = some 2 := by
  decide

/-- C7 amended: registering with an alias that is already bound to a live
entry does not fail with any duplicate-alias error: the connection is
registered under the next index, that index is returned, and the alias is
rebound so that lookup now resolves to the new entry (last writer shadows),
per the spec's own Design Notes on the source behavior. -/
theorem c7_duplicate_alias_shadows (s : LibState) (a : String) (j : Nat)
    (dm : String) (hbound : lookupAssoc s.aliases a = some j) :
    (connect_to_cassandra s (some a) true dm).snd =
      .ok (s.connections.length + 1) ∧
    (connect_to_cassandra s (some a) true dm).fst.connections =
      s.connections ++ [s.nextSession] ∧
    lookupAssoc (connect_to_cassandra s (some a) true dm).fst.aliases a =
      some (s.connections.length + 1) := by
  rw [connect_true_eq]
  refine ⟨rfl, rfl, ?_⟩
  simp [lookupAssoc]

/-- Witness for C7's amended theorem: alias "a" bound to index 1, second
register under "a" returns 2 and rebinds. -/
theorem c7_duplicate_alias_shadows_witness :
    lookupAssoc (run initState [.connect (some "a") true]).aliases "a" =
      some 1 ∧
    ((connect_to_cassandra (run initState [.connect (some "a") true])
        (some "a") true "").snd =
      .ok ((run initState [.connect (some "a") true]).connections.length + 1) ∧
     (connect_to_cassandra (run initState [.connect (some "a") true])
        (some "a") true "").fst.connections =
      (run initState [.connect (some "a") true]).connections ++
        [(run initState [.connect (some "a") true]).nextSession] ∧
     lookupAssoc
       (connect_to_cassandra (run initState [.connect (some "a") true])
         (some "a") true "").fst.aliases "a" =
      some ((run initState [.connect (some "a") true]).connections.length + 1)) :=
  ⟨by decide,
   c7_duplicate_alias_shadows (run initState [.connect (some "a") true])
     "a" 1 "" (by decide)⟩

/-- C8: whenever a connection is current, `execute_cql` forwards the
statement to the driver on that session with `timeout=60`, and returns
exactly what the driver returns: the result set unchanged on success, the
driver's own exception on failure. -/
theorem c8_execute_forwards (s : LibState) (c : Nat) (stmt : String)
    (resp : DriverResp) (h : s.libConnection = some c) :
    execute_cql s stmt resp =
      (s,
       match resp with
       | .ok rows => .ok rows
       | .error m => .error (.driverError m),
       [⟨c, stmt, some 60⟩]) :=
  execute_eq_some s stmt resp c h

/-- Witness for C8 at a concrete state and a successful driver response. -/
theorem c8_execute_forwards_witness :
    (run initState [.connect none true]).libConnection = some 0 ∧
    execute_cql (run initState [.connect none true]) "USE system"
      (.ok [[("k", Value.vStr "a")]]) =
      (run initState [.connect none true],
       .ok [[("k", Value.vStr "a")]],
       [⟨0, "USE system", some 60⟩]) :=
  ⟨by decide,
   c8_execute_forwards (run initState [.connect none true]) 0 "USE system"
     (.ok [[("k", Value.vStr "a")]]) (by decide)⟩

/-- C9: a switch whose index or alias resolves to no entry fails with the
unknown-connection `RuntimeError` and leaves the whole state — registered
entries, alias bindings and the current pointer — exactly as it was. -/
theorem c9_failed_switch_atomic (s : LibState) (x : ConnId)
    (h : resolveAliasOrIndex s x = none) :
    switch_cassandra_connection s x =
      (s, .error (.runtimeError (unknownConnectionMsg x))) ∧
    (switch_cassandra_connection s x).fst.connections = s.connections ∧
    (switch_cassandra_connection s x).fst.aliases = s.aliases ∧
    (switch_cassandra_connection s x).fst.cacheCurrent = s.cacheCurrent ∧
    (switch_cassandra_connection s x).fst.libConnection = s.libConnection := by
  have hs := switch_eq_unresolved s x h
  exact ⟨hs, by rw [hs], by rw [hs], by rw [hs], by rw [hs]⟩

/-- Witness for C9: switching to index 5 with two registered connections. -/
theorem c9_failed_switch_atomic_witness :
    resolveAliasOrIndex (run initState [.connect (some "c1") true, .connect none true])
      (.byIndex 5) = none ∧
    (switch_cassandra_connection
      (run initState [.connect (some "c1") true, .connect none true])
      (.byIndex 5) =
      (run initState [.connect (some "c1") true, .connect none true],
       .error (.runtimeError (unknownConnectionMsg (.byIndex 5)))) ∧
     (switch_cassandra_connection
       (run initState [.connect (some "c1") true, .connect none true])
       (.byIndex 5)).fst.connections =
      (run initState [.connect (some "c1") true, .connect none true]).connections ∧
     (switch_cassandra_connection
       (run initState [.connect (some "c1") true, .connect none true])
       (.byIndex 5)).fst.aliases =
      (run initState [.connect (some "c1") true, .connect none true]).aliases ∧
     (switch_cassandra_connection
       (run initState [.connect (some "c1") true, .connect none true])
       (.byIndex 5)).fst.cacheCurrent =
      (run initState [.connect (some "c1") true, .connect none true]).cacheCurrent ∧
     (switch_cassandra_connection
       (run initState [.connect (some "c1") true, .connect none true])
       (.byIndex 5)).fst.libConnection =
      (run initState [.connect (some "c1") true, .connect none true]).libConnection) :=
  ⟨by decide,
   c9_failed_switch_atomic
     (run initState [.connect (some "c1") true, .connect none true])
     (.byIndex 5) (by decide)⟩

/-- C10: with a current connection, `disconnect_from_cassandra` succeeds,
shuts the current session down, and changes nothing else: the cache keeps
every entry with its index and alias, the current pointer stands, and a
subsequent `execute_cql` does not fail with the no-connection error —
it forwards the statement to the shut-down session. -/
theorem c10_disconnect_keeps_cache (s : LibState) (c : Nat) (stmt : String)
    (resp : DriverResp) (h : s.libConnection = some c) :
    (disconnect_from_cassandra s).snd = .ok () ∧
    (disconnect_from_cassandra s).fst.connections = s.connections ∧
    (disconnect_from_cassandra s).fst.aliases = s.aliases ∧
    (disconnect_from_cassandra s).fst.cacheCurrent = s.cacheCurrent ∧
    (disconnect_from_cassandra s).fst.libConnection = some c ∧
    c ∈ (disconnect_from_cassandra s).fst.shutdownSessions ∧
    execute_cql (disconnect_from_cassandra s).fst stmt resp =
      ((disconnect_from_cassandra s).fst,
       match resp with
       | .ok rows => .ok rows
       | .error m => .error (.driverError m),
       [⟨c, stmt, some 60⟩]) ∧
    (execute_cql (disconnect_from_cassandra s).fst stmt resp).snd.fst ≠
      .error (.pyException noConnectionMsg) := by
  have hd := disconnect_eq_some s c h
  rw [hd]
  have he := execute_eq_some
    ({ s with shutdownSessions := c :: s.shutdownSessions }) stmt resp c h
  refine ⟨rfl, rfl, rfl, rfl, h, List.mem_cons_self _ _, he, ?_⟩
  rw [he]
  cases resp <;> simp

/-- Witness for C10 at a concrete one-connection state. -/
theorem c10_disconnect_keeps_cache_witness :
    (run initState [.connect none true]).libConnection = some 0 ∧
    ((disconnect_from_cassandra (run initState [.connect none true])).snd =
      .ok () ∧
     (disconnect_from_cassandra
       (run initState [.connect none true])).fst.connections =
      (run initState [.connect none true]).connections ∧
     (disconnect_from_cassandra
       (run initState [.connect none true])).fst.aliases =
      (run initState [.connect none true]).aliases ∧
     (disconnect_from_cassandra
       (run initState [.connect none true])).fst.cacheCurrent =
      (run initState [.connect none true]).cacheCurrent ∧
     (disconnect_from_cassandra
       (run initState [.connect none true])).fst.libConnection = some 0 ∧
     0 ∈ (disconnect_from_cassandra
       (run initState [.connect none true])).fst.shutdownSessions ∧
     execute_cql
       (disconnect_from_cassandra (run initState [.connect none true])).fst
       "USE system" (.ok []) =
      ((disconnect_from_cassandra (run initState [.connect none true])).fst,
       .ok [],
       [⟨0, "USE system", some 60⟩]) ∧
     (execute_cql
       (disconnect_from_cassandra (run initState [.connect none true])).fst
       "USE system" (.ok [])).snd.fst ≠
      .error (.pyException noConnectionMsg)) :=
  ⟨by decide,
   c10_disconnect_keeps_cache (run initState [.connect none true]) 0
     "USE system" (.ok []) (by decide)⟩
